import Mathlib

/-!
Verification of the task-orchestration layer of the circuit-executor repository.

The definitions below are a shallow embedding of the Python sources:
`src/common/models.py` (data model), `src/common/redis_client.py` (store client),
`src/api/main.py` (submission and retrieval endpoints), `src/worker/main.py`
(dispatch loop, task processor, shutdown) and
`src/common/utils/circuit_utils.py` (payload serialisation).

Modelling conventions:
- Machine-level JSON encode/decode (`json.dumps` / `json.loads` with
  `CustomJSONEncoder`) round-trips the task dictionaries involved, so store
  values are modelled as the records themselves rather than as strings.
- Timestamps are abstract `Nat` instants supplied by the environment.
- Collaborator behaviour (Redis write success, NATS connectivity, publish
  success, QASM decoding, engine outcome) is supplied by explicit environment
  records, one per operation, mirroring where the Python code can raise.
-/

namespace CircuitExecutor

/-- Status of a task, from `TaskStatus` in `common/models.py`. -/
inductive TaskStatus where
  | pending
  | processing
  | completed
  | failed
deriving DecidableEq, Repr

/-- Stored task record, from `Task` in `common/models.py` as it is serialised to
the store: `result` maps outcome labels to counts, `error` is a message, and the
optional fields default to absent exactly as in the pydantic model. -/
structure TaskData where
  id : String
  circuit_qasm : String
  shots : Int
  status : TaskStatus
  result : Option (List (String × Nat)) := none
  error : Option String := none
  created_at : Nat
  completed_at : Option Nat := none
deriving DecidableEq, Repr

/-- Redis key for a task: both `RedisClient.set_task` and `RedisClient.get_task`
in `common/redis_client.py` prefix the id with the literal `task:`. -/
def taskKey (task_id : String) : String := "task:" ++ task_id

/-- Durable store content: Redis keys mapped to stored task records. -/
abbrev Store := List (String × TaskData)

/-- Mirror of `RedisClient.set_task`: serialise the record and SET it, an upsert
on the task's key. -/
def set_task (store : Store) (task_id : String) (d : TaskData) : Store :=
  (taskKey task_id, d) :: store.filter (fun kv => kv.1 != taskKey task_id)

/-- Mirror of `RedisClient.get_task`: GET the task's key and deserialise; an
absent key yields `none`. -/
def get_task (store : Store) (task_id : String) : Option TaskData :=
  store.lookup (taskKey task_id)

/-- Request body of POST `/tasks`: `QuantumCircuitRequest` in `api/main.py` has a
plain string and a plain `int` field, with no constraint on `shots`. (The
separate `TaskRequest` model in `common/models.py`, which does declare
`shots > 0`, is not used by the endpoint.) -/
structure QuantumCircuitRequest where
  quantum_circuit : String
  shots : Int
deriving DecidableEq, Repr

/-- Collaborator behaviour during one call of the submission endpoint: the fresh
uuid, the current time, whether `redis_client.set_task` raises, whether
`nats_client.is_connected()` holds, and whether `nats_client.publish` delivers. -/
structure SubmitEnv where
  freshId : String
  now : Nat
  store_write_ok : Bool
  nats_connected : Bool
  publish_ok : Bool
deriving DecidableEq, Repr

/-- Externally visible side effects of one submission, in program order. -/
inductive SubmitEvent where
  | storeWrite (key : String) (record : TaskData)
  | busPublish (subject : String) (task_id : String)
deriving DecidableEq, Repr

/-- Outcome of the submission endpoint: the HTTP 201 body, or a raised
`HTTPException` with its status code. -/
inductive SubmitResult where
  | created (task_id : String) (status : String)
  | httpError (code : Nat)
deriving DecidableEq, Repr

/-- Task record built by `submit_task` in `api/main.py`: status PENDING,
creation time now, the remaining optional fields at their defaults. -/
def newTask (env : SubmitEnv) (req : QuantumCircuitRequest) : TaskData :=
  { id := env.freshId
    circuit_qasm := req.quantum_circuit
    shots := req.shots
    status := .pending
    created_at := env.now }

/-- Mirror of the POST `/tasks` endpoint `submit_task` in `api/main.py`. A store
write failure raises HTTP 500 (the inner `HTTPException` is re-caught by the
outer handler and re-raised, still as a 500) before any publish is attempted.
After a successful write, a NATS publish is attempted only when the client is
connected, and a publish failure is logged and ignored, so the endpoint still
returns 201 with the fresh id and status string `pending`. -/
def submit_task (env : SubmitEnv) (req : QuantumCircuitRequest) (store : Store) :
    SubmitResult × Store × List SubmitEvent :=
  let task := newTask env req
  if env.store_write_ok then
    let store1 := set_task store env.freshId task
    let events := [SubmitEvent.storeWrite (taskKey env.freshId) task]
    let events :=
      if env.nats_connected && env.publish_ok then
        events ++ [SubmitEvent.busPublish "tasks" env.freshId]
      else events
    (.created env.freshId "pending", store1, events)
  else
    (.httpError 500, store, [])

/-- Outcome of the retrieval endpoint: the record, or HTTP 404. -/
inductive GetResult where
  | ok (record : TaskData)
  | notFound
deriving DecidableEq, Repr

/-- Mirror of the GET `/tasks/task_id` endpoint `get_task` in `api/main.py`:
a pure read-through to `RedisClient.get_task`. A stored task record always
serialises to a non-empty JSON object, so Python truthiness of a present record
is true and the `if not task_data` test fires exactly on absence, yielding 404. -/
def get_task_endpoint (store : Store) (task_id : String) : GetResult :=
  match get_task store task_id with
  | none => .notFound
  | some d => .ok d

/-- Collaborator behaviour during one processing run in `worker/main.py`:
whether `qasm_to_circuit` decodes the stored circuit, what `execute_circuit`
returns for it (counts, or the message of a raised error), and the current time
used for `completed_at`. -/
structure WorkerEnv where
  qasm_ok : String → Bool
  engine : String → Int → Except String (List (String × Nat))
  now : Nat

/-- Mirror of `handle_task_error` in `worker/main.py`: re-read the record; when
present, set status FAILED, the error message and the completion time, and
persist; when absent, do nothing. Failures of this final write are swallowed by
the source; store operations are modelled as reliable during processing. -/
def handle_task_error (env : WorkerEnv) (store : Store) (task_id : String)
    (error_message : String) : Store × List TaskData :=
  match get_task store task_id with
  | none => (store, [])
  | some td =>
    let tdF : TaskData :=
      { td with status := .failed, error := some error_message,
                completed_at := some env.now }
    (set_task store task_id tdF, [tdF])

/-- Mirror of `process_task` in `worker/main.py`: load the record and stop when
absent; otherwise set status PROCESSING on the loaded record (all other fields
kept as loaded — the source mutates the loaded dict in place) and persist it;
decode the circuit and run the engine; on success persist the record with its
result, status COMPLETED and completion time; on a decode or engine error fall
through to `handle_task_error`. The returned list collects the records passed
to `set_task`, in order — every element is a state the store held at some
instant of the run. -/
def process_task (env : WorkerEnv) (store : Store) (task_id : String) :
    Store × List TaskData :=
  match get_task store task_id with
  | none => (store, [])
  | some td =>
    let td1 : TaskData := { td with status := .processing }
    let store1 := set_task store task_id td1
    if env.qasm_ok td.circuit_qasm then
      match env.engine td.circuit_qasm td1.shots with
      | .ok counts =>
        let td2 : TaskData :=
          { td1 with result := some counts, status := .completed,
                     completed_at := some env.now }
        (set_task store1 task_id td2, [td1, td2])
      | .error msg =>
        let r := handle_task_error env store1 task_id msg
        (r.1, td1 :: r.2)
    else
      let r := handle_task_error env store1 task_id "QASM decode error"
      (r.1, td1 :: r.2)

/-- Process-local limiter state of the dispatch loop in `worker/main.py`:
`sem` is the available permit count of the `asyncio.Semaphore` created with the
configured capacity (this semaphore is not bounded — `release` always either
increments the count or wakes a waiter); `waiting` counts handler coroutines
suspended inside `sem.acquire()`; `inFlight` counts spawned `process_task`
coroutines that have not yet finished, each holding one permit until its
done-callback releases it. -/
structure DispatchState where
  sem : Nat
  waiting : Nat
  inFlight : Nat
deriving DecidableEq, Repr

/-- Initial dispatch state: the semaphore at full capacity, no handler waiting,
no task in flight — the active set is rebuilt empty on every process start. -/
def initDispatch (capacity : Nat) : DispatchState :=
  { sem := capacity, waiting := 0, inFlight := 0 }

/-- Semantics of `sem.release()` on an `asyncio.Semaphore`: wake one waiter —
whose handler then completes its `acquire` and immediately spawns its task — or,
with no waiter, increment the permit count (unboundedly). -/
def semRelease (s : DispatchState) : DispatchState :=
  if s.waiting = 0 then { s with sem := s.sem + 1 }
  else { s with waiting := s.waiting - 1, inFlight := s.inFlight + 1 }

/-- Events driving the dispatch loop: the three message shapes distinguished by
`handle_task_message` in `worker/main.py`, plus the completion of a spawned
task (its `add_done_callback` releasing the slot). -/
inductive DispatchEvent where
  | msgValid
  | msgNoTaskId
  | msgMalformed
  | taskDone
deriving DecidableEq, Repr

/-- One step of the dispatch loop, from `handle_task_message` in
`worker/main.py` and the done-callback it registers. A decodable message with a
task id acquires a permit when one is free and spawns `process_task`, otherwise
the handler suspends in `acquire`; a decodable message without a task id
returns without touching the semaphore; a message whose payload fails to decode
raises before `acquire` is reached, and the handler's blanket except branch
then runs `sem.release()` anyway; a finishing task leaves the in-flight set and
its done-callback releases its permit. -/
def dispatchStep (s : DispatchState) : DispatchEvent → DispatchState
  | .msgValid =>
    if 0 < s.sem then { s with sem := s.sem - 1, inFlight := s.inFlight + 1 }
    else { s with waiting := s.waiting + 1 }
  | .msgNoTaskId => s
  | .msgMalformed => semRelease s
  | .taskDone =>
    if 0 < s.inFlight then semRelease { s with inFlight := s.inFlight - 1 }
    else s

/-- Dispatch state reached after a sequence of events from the initial state. -/
def dispatchRun (capacity : Nat) (events : List DispatchEvent) : DispatchState :=
  events.foldl dispatchStep (initDispatch capacity)

/-- Drain timeout hard-coded in `shutdown` in `worker/main.py`: 10 seconds. -/
def shutdown_timeout : ℚ := 10

/-- Duration, in seconds, of the `asyncio.gather` that `shutdown` awaits: one
`asyncio.sleep(0.1)` per currently active task, all running concurrently, so
any non-empty active set takes exactly 0.1 seconds. -/
def gather_sleeps_duration (active_count : Nat) : ℚ :=
  if active_count = 0 then 0 else 1 / 10

/-- Semantics of `asyncio.wait_for`: the awaited coroutine's duration capped at
the timeout (a timeout fires only when the coroutine outlasts it). -/
def wait_for_duration (d timeout : ℚ) : ℚ := min d timeout

/-- Time `shutdown` in `worker/main.py` spends waiting before it closes the
NATS and Redis connections. `remaining` gives each active task's outstanding
run time; the body awaits only the gathered sleeps, so `remaining` is never
consulted by the computation. -/
def shutdown_wait_duration (active : List String) (remaining : String → ℚ) : ℚ :=
  if active.isEmpty then 0
  else wait_for_duration (gather_sleeps_duration active.length) shutdown_timeout

/-- Opaque circuit value: a qiskit `QuantumCircuit`, carried as its QASM3 text
together with the two counts the serialiser reads from it. -/
structure QuantumCircuit where
  qasm3 : String
  num_qubits : Nat
  num_clbits : Nat
deriving DecidableEq, Repr

/-- Mirror of `circuit_to_qasm` in `common/utils/circuit_utils.py`: the qiskit
QASM3 dump of the circuit, modelled as the circuit's carried text. -/
def circuit_to_qasm (c : QuantumCircuit) : String := c.qasm3

/-- Wire payload of the circuit-serialisation helpers: a JSON object with a
qasm string and optional `shots` and `metadata` members (an arbitrary incoming
payload may lack either, hence the `Option` fields). -/
structure CircuitPayload where
  qasm : String
  shots : Option Int
  metadata : Option (List (String × Nat))
deriving DecidableEq, Repr

/-- Value deserialised from a payload: the decoded circuit (identified here by
its QASM3 source text), the shots and the metadata. -/
structure DeserialisedPayload where
  circuit_qasm3 : String
  shots : Int
  metadata : List (String × Nat)
deriving DecidableEq, Repr

/-- Mirror of `serialise_circuit_payload` in `common/utils/circuit_utils.py`:
the Python expression `shots or 1024` replaces a falsy `shots` argument — None
or 0 — with the default 1024, and any non-zero integer passes through. -/
def serialise_circuit_payload (c : QuantumCircuit) (shots : Option Int) :
    CircuitPayload :=
  { qasm := circuit_to_qasm c
    shots := some (match shots with
      | none => 1024
      | some n => if n = 0 then 1024 else n)
    metadata := some [("num_qubits", c.num_qubits), ("num_clbits", c.num_clbits)] }

/-- Mirror of `deserialise_circuit_payload` in
`common/utils/circuit_utils.py`: `payload.get` falls back to 1024 when the
`shots` key is absent and to an empty object when `metadata` is absent; the
embedded qasm is decoded back to a circuit. -/
def deserialise_circuit_payload (p : CircuitPayload) : DeserialisedPayload :=
  { circuit_qasm3 := p.qasm
    shots := p.shots.getD 1024
    metadata := p.metadata.getD [] }

/-! Helper lemmas shared by the claim theorems. -/

/-- Reading a task back immediately after writing it yields the written record. -/
theorem get_task_set_task_self (store : Store) (task_id : String) (d : TaskData) :
    get_task (set_task store task_id d) task_id = some d := by
  simp [get_task, set_task, List.lookup]

/-! Claim theorems. -/

/-- C1: refuted on the code. `QuantumCircuitRequest` places no bound on `shots`
and `submit_task` performs no validation (the `TaskRequest` model declaring
`shots > 0` exists in `common/models.py` but the endpoint does not use it), so
a submission with `shots = 0` succeeds with HTTP 201 and persists a PENDING
record with `shots = 0`, where the claim requires an `InvalidRequest` failure
with nothing written. -/
theorem C1_zero_shots_accepted_and_persisted :
    (submit_task ⟨"id-1", 0, true, true, true⟩ ⟨"OPENQASM 3.0;", 0⟩ []).1 =
      .created "id-1" "pending" ∧
    get_task
        (submit_task ⟨"id-1", 0, true, true, true⟩ ⟨"OPENQASM 3.0;", 0⟩ []).2.1
        "id-1" =
      some { id := "id-1", circuit_qasm := "OPENQASM 3.0;", shots := 0,
             status := .pending, created_at := 0 } :=
  ⟨rfl, rfl⟩

/-- C6: `submit_task` persists the PENDING record before any notification is
attempted — the store-write event heads the event list and anything after it is
a bus publish — and when the store write fails the submission fails with HTTP
500, the store is untouched and nothing is published. -/
theorem C6_persist_pending_before_notify (env : SubmitEnv)
    (req : QuantumCircuitRequest) (store : Store) :
    (env.store_write_ok = false →
      (submit_task env req store).1 = .httpError 500 ∧
      (submit_task env req store).2.1 = store ∧
      (submit_task env req store).2.2 = []) ∧
    (env.store_write_ok = true →
      ∃ tail,
        (submit_task env req store).2.2 =
          SubmitEvent.storeWrite (taskKey env.freshId) (newTask env req) :: tail ∧
        (newTask env req).status = .pending ∧
        ∀ e ∈ tail, e = SubmitEvent.busPublish "tasks" env.freshId) := by
  constructor
  · intro h
    simp [submit_task, h]
  · intro h
    by_cases hb : (env.nats_connected && env.publish_ok) = true
    · refine ⟨[SubmitEvent.busPublish "tasks" env.freshId], ?_, rfl, ?_⟩
      · simp [submit_task, h, hb]
      · intro e he
        simpa using he
    · refine ⟨[], ?_, rfl, ?_⟩
      · simp [submit_task, h, hb]
      · intro e he
        simp at he

/-- Witness for C6 at concrete inputs: a failing store write yields HTTP 500
with no write and no publish, and a successful one persists the PENDING record
first. -/
theorem C6_witness :
    ((submit_task ⟨"id-6", 1, false, true, true⟩ ⟨"qasm", 7⟩ []).1 =
        .httpError 500 ∧
      (submit_task ⟨"id-6", 1, false, true, true⟩ ⟨"qasm", 7⟩ []).2.1 = [] ∧
      (submit_task ⟨"id-6", 1, false, true, true⟩ ⟨"qasm", 7⟩ []).2.2 = []) ∧
    (∃ tail,
      (submit_task ⟨"id-6", 1, true, true, true⟩ ⟨"qasm", 7⟩ []).2.2 =
        SubmitEvent.storeWrite (taskKey "id-6")
          (newTask ⟨"id-6", 1, true, true, true⟩ ⟨"qasm", 7⟩) :: tail ∧
      (newTask ⟨"id-6", 1, true, true, true⟩ ⟨"qasm", 7⟩).status = .pending ∧
      ∀ e ∈ tail, e = SubmitEvent.busPublish "tasks" "id-6") :=
  ⟨(C6_persist_pending_before_notify ⟨"id-6", 1, false, true, true⟩ ⟨"qasm", 7⟩ []).1 rfl,
   (C6_persist_pending_before_notify ⟨"id-6", 1, true, true, true⟩ ⟨"qasm", 7⟩ []).2 rfl⟩

/-- C7: once the store write succeeds, the submission succeeds for every bus
behaviour — disconnected bus, failing publish, or a successful publish — and
returns the fresh id with status string `pending`. -/
theorem C7_bus_failure_never_fails_submit (env : SubmitEnv)
    (req : QuantumCircuitRequest) (store : Store)
    (h : env.store_write_ok = true) :
    (submit_task env req store).1 = .created env.freshId "pending" := by
  simp [submit_task, h]

/-- Witness for C7: with the bus connected but the publish failing, the
submission still returns the fresh id with status `pending`. -/
theorem C7_witness :
    (submit_task ⟨"id-7", 3, true, true, false⟩ ⟨"qasm", 5⟩ []).1 =
      .created "id-7" "pending" :=
  C7_bus_failure_never_fails_submit ⟨"id-7", 3, true, true, false⟩ ⟨"qasm", 5⟩ [] rfl

/-- C8: retrieval is a pure read-through: an id absent from the store yields
NotFound (never an error), an id present yields the stored record unchanged,
and a record just written is read back exactly. -/
theorem C8_get_pure_read_through (store : Store) (task_id : String) :
    (get_task store task_id = none →
      get_task_endpoint store task_id = .notFound) ∧
    (∀ td, get_task store task_id = some td →
      get_task_endpoint store task_id = .ok td) ∧
    (∀ td, get_task_endpoint (set_task store task_id td) task_id = .ok td) := by
  refine ⟨fun h => ?_, fun td h => ?_, fun td => ?_⟩
  · simp [get_task_endpoint, h]
  · simp [get_task_endpoint, h]
  · simp [get_task_endpoint, get_task_set_task_self]

/-- Witness for C8: an unknown id on a concrete store is NotFound, a present id
returns its record, and a freshly written record is read back. -/
theorem C8_witness :
    (get_task_endpoint [] "missing" = .notFound) ∧
    (get_task_endpoint
        (set_task [] "t8"
          { id := "t8", circuit_qasm := "qc", shots := 4, status := .pending,
            created_at := 0 })
        "t8" =
      .ok { id := "t8", circuit_qasm := "qc", shots := 4, status := .pending,
            created_at := 0 }) :=
  ⟨(C8_get_pure_read_through [] "missing").1 rfl,
   (C8_get_pure_read_through [] "t8").2.2
     { id := "t8", circuit_qasm := "qc", shots := 4, status := .pending,
       created_at := 0 }⟩

/-- C9: a notification whose task id is absent from the store leaves every
piece of durable state untouched: `process_task` returns with the store
unchanged and an empty list of writes, and, being total, propagates no failure. -/
theorem C9_unknown_task_no_mutation (env : WorkerEnv) (store : Store)
    (task_id : String) (h : get_task store task_id = none) :
    process_task env store task_id = (store, []) := by
  simp [process_task, h]

/-- Witness for C9: processing an id against the empty store changes nothing. -/
theorem C9_witness :
    process_task ⟨fun _ => true, fun _ _ => .ok [], 0⟩ [] "ghost" = ([], []) :=
  C9_unknown_task_no_mutation ⟨fun _ => true, fun _ _ => .ok [], 0⟩ [] "ghost" rfl

/-- C10: the shots value round-trips through serialise/deserialise when
positive, while `None` and `0` are both replaced by the default 1024, because
`serialise_circuit_payload` replaces any falsy shots argument with 1024. -/
theorem C10_shots_roundtrip (c : QuantumCircuit) (s : Int) :
    (0 < s →
      (deserialise_circuit_payload (serialise_circuit_payload c (some s))).shots
        = s) ∧
    (deserialise_circuit_payload (serialise_circuit_payload c none)).shots
        = 1024 ∧
    (deserialise_circuit_payload (serialise_circuit_payload c (some 0))).shots
        = 1024 := by
  refine ⟨fun hs => ?_, rfl, rfl⟩
  have hz : s ≠ 0 := by omega
  simp [serialise_circuit_payload, deserialise_circuit_payload, hz]

/-- Witness for C10: shots 100 survives the round-trip, while None and 0 come
back as 1024. -/
theorem C10_witness :
    (deserialise_circuit_payload
        (serialise_circuit_payload ⟨"OPENQASM 3.0;", 2, 2⟩ (some 100))).shots
      = 100 ∧
    (deserialise_circuit_payload
        (serialise_circuit_payload ⟨"OPENQASM 3.0;", 2, 2⟩ none)).shots
      = 1024 ∧
    (deserialise_circuit_payload
        (serialise_circuit_payload ⟨"OPENQASM 3.0;", 2, 2⟩ (some 0))).shots
      = 1024 :=
  ⟨(C10_shots_roundtrip ⟨"OPENQASM 3.0;", 2, 2⟩ 100).1 (by norm_num),
   (C10_shots_roundtrip ⟨"OPENQASM 3.0;", 2, 2⟩ 100).2⟩

/-- C2: refuted on the code. `process_task` never inspects the loaded status,
so a duplicate notification for a task already COMPLETED persists it straight
back to PROCESSING: the first record the run passes to `set_task` — the state
the store holds immediately after that write — carries status PROCESSING for a
task whose stored status was COMPLETED. -/
theorem C2_counterexample :
    get_task
        (set_task []
          "t1"
          { id := "t1", circuit_qasm := "qc", shots := 5,
            status := .completed, result := some [("00", 5)],
            created_at := 0, completed_at := some 1 })
        "t1" =
      some { id := "t1", circuit_qasm := "qc", shots := 5,
             status := .completed, result := some [("00", 5)],
             created_at := 0, completed_at := some 1 } ∧
    (process_task ⟨fun _ => true, fun _ _ => .ok [("00", 5)], 2⟩
        (set_task []
          "t1"
          { id := "t1", circuit_qasm := "qc", shots := 5,
            status := .completed, result := some [("00", 5)],
            created_at := 0, completed_at := some 1 })
        "t1").2.head? =
      some { id := "t1", circuit_qasm := "qc", shots := 5,
             status := .processing, result := some [("00", 5)],
             created_at := 0, completed_at := some 1 } :=
  ⟨rfl, rfl⟩

/-- C2 amended: within a single processing run the persisted statuses never
regress — the run writes PROCESSING and then exactly one terminal status, so a
task that is never the subject of a duplicate notification moves one-way
through its states. A duplicate notification, however, starts a fresh run that
writes PROCESSING again whatever the stored status (see the counterexample). -/
theorem C2_amended_single_run_monotone (env : WorkerEnv) (store : Store)
    (task_id : String) (td : TaskData) (h : get_task store task_id = some td) :
    (process_task env store task_id).2.map TaskData.status =
        [TaskStatus.processing, TaskStatus.completed] ∨
    (process_task env store task_id).2.map TaskData.status =
        [TaskStatus.processing, TaskStatus.failed] := by
  cases hq : env.qasm_ok td.circuit_qasm with
  | false =>
    right
    simp [process_task, h, hq, handle_task_error, get_task_set_task_self]
  | true =>
    cases he : env.engine td.circuit_qasm td.shots with
    | ok counts =>
      left
      simp [process_task, h, hq, he]
    | error msg =>
      right
      simp [process_task, h, hq, he, handle_task_error, get_task_set_task_self]

/-- Witness for the amended C2 at a concrete pending task and a succeeding
engine: the run's persisted statuses are PROCESSING then COMPLETED. -/
theorem C2_amended_witness :
    (process_task ⟨fun _ => true, fun _ _ => .ok [("00", 5)], 3⟩
        (set_task [] "t2"
          { id := "t2", circuit_qasm := "qc", shots := 5,
            status := .pending, created_at := 0 })
        "t2").2.map TaskData.status =
      [TaskStatus.processing, TaskStatus.completed] ∨
    (process_task ⟨fun _ => true, fun _ _ => .ok [("00", 5)], 3⟩
        (set_task [] "t2"
          { id := "t2", circuit_qasm := "qc", shots := 5,
            status := .pending, created_at := 0 })
        "t2").2.map TaskData.status =
      [TaskStatus.processing, TaskStatus.failed] :=
  C2_amended_single_run_monotone ⟨fun _ => true, fun _ _ => .ok [("00", 5)], 3⟩
    (set_task [] "t2"
      { id := "t2", circuit_qasm := "qc", shots := 5,
        status := .pending, created_at := 0 })
    "t2"
    { id := "t2", circuit_qasm := "qc", shots := 5,
      status := .pending, created_at := 0 }
    rfl

/-- C5: refuted on the code. Reprocessing a COMPLETED task (duplicate
notification) with the engine failing this time leaves the store's final,
durable record with status FAILED, `error` populated, and the stale `result`
still populated — both fields present at once, and `result` present with
status not COMPLETED. -/
theorem C5_counterexample :
    get_task
        (process_task ⟨fun _ => true, fun _ _ => .error "boom", 2⟩
          (set_task [] "t5"
            { id := "t5", circuit_qasm := "qc", shots := 5,
              status := .completed, result := some [("00", 5)],
              created_at := 0, completed_at := some 1 })
          "t5").1
        "t5" =
      some { id := "t5", circuit_qasm := "qc", shots := 5,
             status := .failed, result := some [("00", 5)],
             error := some "boom", created_at := 0, completed_at := some 2 } :=
  rfl

/-- C5 amended: for a processing run whose loaded record carries no result and
no error — in particular any record as the Submitter created it — every record
the run persists satisfies the claimed invariant: `result` present exactly when
COMPLETED, `error` present exactly when FAILED, never both. The invariant is
broken only by rerunning a task whose record already carries a result or an
error (see the counterexample). -/
theorem C5_amended_single_run_result_error (env : WorkerEnv) (store : Store)
    (task_id : String) (td : TaskData) (h : get_task store task_id = some td)
    (hr : td.result = none) (he : td.error = none) :
    ∀ w ∈ (process_task env store task_id).2,
      (w.result ≠ none ↔ w.status = TaskStatus.completed) ∧
      (w.error ≠ none ↔ w.status = TaskStatus.failed) ∧
      ¬(w.result ≠ none ∧ w.error ≠ none) := by
  cases hq : env.qasm_ok td.circuit_qasm with
  | false =>
    simp [process_task, h, hq, handle_task_error, get_task_set_task_self,
      List.forall_mem_cons, hr, he]
  | true =>
    cases heng : env.engine td.circuit_qasm td.shots with
    | ok counts =>
      simp [process_task, h, hq, heng, List.forall_mem_cons, hr, he]
    | error msg =>
      simp [process_task, h, hq, heng, handle_task_error,
        get_task_set_task_self, List.forall_mem_cons, hr, he]

/-- Witness for the amended C5: the COMPLETED record persisted by a concrete
clean run carries a result, no error, and not both fields. -/
theorem C5_amended_witness :
    (({ id := "t5w", circuit_qasm := "qc", shots := 5,
        status := TaskStatus.completed, result := some [("00", 5)],
        created_at := 0, completed_at := some 9 } : TaskData).result ≠ none ↔
      ({ id := "t5w", circuit_qasm := "qc", shots := 5,
         status := TaskStatus.completed, result := some [("00", 5)],
         created_at := 0, completed_at := some 9 } : TaskData).status =
        TaskStatus.completed) ∧
    (({ id := "t5w", circuit_qasm := "qc", shots := 5,
        status := TaskStatus.completed, result := some [("00", 5)],
        created_at := 0, completed_at := some 9 } : TaskData).error ≠ none ↔
      ({ id := "t5w", circuit_qasm := "qc", shots := 5,
         status := TaskStatus.completed, result := some [("00", 5)],
         created_at := 0, completed_at := some 9 } : TaskData).status =
        TaskStatus.failed) ∧
    ¬(({ id := "t5w", circuit_qasm := "qc", shots := 5,
         status := TaskStatus.completed, result := some [("00", 5)],
         created_at := 0, completed_at := some 9 } : TaskData).result ≠ none ∧
      ({ id := "t5w", circuit_qasm := "qc", shots := 5,
         status := TaskStatus.completed, result := some [("00", 5)],
         created_at := 0, completed_at := some 9 } : TaskData).error ≠ none) :=
  C5_amended_single_run_result_error
    ⟨fun _ => true, fun _ _ => .ok [("00", 5)], 9⟩
    (set_task [] "t5w"
      { id := "t5w", circuit_qasm := "qc", shots := 5,
        status := .pending, created_at := 0 })
    "t5w"
    { id := "t5w", circuit_qasm := "qc", shots := 5,
      status := .pending, created_at := 0 }
    rfl rfl rfl
    { id := "t5w", circuit_qasm := "qc", shots := 5,
      status := TaskStatus.completed, result := some [("00", 5)],
      created_at := 0, completed_at := some 9 }
    (by decide)

/-- One non-malformed dispatch step preserves the total permit count: permits
held by in-flight tasks plus free permits. -/
theorem dispatchStep_permit_sum (s : DispatchState) (e : DispatchEvent)
    (he : e ≠ DispatchEvent.msgMalformed) :
    (dispatchStep s e).inFlight + (dispatchStep s e).sem =
      s.inFlight + s.sem := by
  cases e with
  | msgValid =>
    by_cases hs : 0 < s.sem
    · simp [dispatchStep, hs]
      omega
    · simp [dispatchStep, hs]
  | msgNoTaskId => rfl
  | msgMalformed => exact absurd rfl he
  | taskDone =>
    by_cases hf : 0 < s.inFlight
    · by_cases hw : s.waiting = 0
      · simp [dispatchStep, hf, semRelease, hw]
        omega
      · simp [dispatchStep, hf, semRelease, hw]
        omega
    · simp [dispatchStep, hf]

/-- A malformed-free event sequence preserves the total permit count from any
starting state. -/
theorem dispatchFold_permit_sum (events : List DispatchEvent)
    (s : DispatchState) (h : DispatchEvent.msgMalformed ∉ events) :
    (events.foldl dispatchStep s).inFlight +
        (events.foldl dispatchStep s).sem =
      s.inFlight + s.sem := by
  induction events generalizing s with
  | nil => rfl
  | cons e es ih =>
    have h1 : e ≠ DispatchEvent.msgMalformed := by
      intro heq
      rw [heq] at h
      exact h (List.mem_cons_self _ _)
    have h2 : DispatchEvent.msgMalformed ∉ es :=
      fun hm => h (List.mem_cons_of_mem _ hm)
    rw [List.foldl_cons, ih _ h2, dispatchStep_permit_sum s e h1]

/-- C3: refuted on the code. The blanket except branch of
`handle_task_message` runs `sem.release()` on a message whose payload fails to
decode, although that handler raised before ever reaching `sem.acquire()`.
With capacity 1, one malformed message drives the free permit count to 2 —
beyond the capacity — after which two valid notifications are both admitted
and two tasks are in flight (hence in PROCESSING) at the same instant. -/
theorem C3_counterexample :
    dispatchRun 1 [DispatchEvent.msgMalformed] =
      { sem := 2, waiting := 0, inFlight := 0 } ∧
    dispatchRun 1
        [DispatchEvent.msgMalformed, DispatchEvent.msgValid,
         DispatchEvent.msgValid] =
      { sem := 0, waiting := 0, inFlight := 2 } := by
  decide

/-- C3 amended: for notification streams in which every message payload
decodes — whether or not it carries a task id — the limiter bound holds from a
fresh start: in-flight tasks plus free permits always equal the capacity, so at
most `capacity` tasks are in flight (and hence in PROCESSING) at any instant,
each admitted task holding exactly one permit until its done-callback releases
it. A message that fails to decode breaks the bound (see the counterexample). -/
theorem C3_amended_bound_without_malformed (capacity : Nat)
    (events : List DispatchEvent)
    (h : DispatchEvent.msgMalformed ∉ events) :
    (dispatchRun capacity events).inFlight +
        (dispatchRun capacity events).sem = capacity ∧
    (dispatchRun capacity events).inFlight ≤ capacity := by
  have hsum : (dispatchRun capacity events).inFlight +
      (dispatchRun capacity events).sem = capacity := by
    have := dispatchFold_permit_sum events (initDispatch capacity) h
    simpa [dispatchRun, initDispatch] using this
  exact ⟨hsum, by omega⟩

/-- Witness for the amended C3: a well-formed burst against capacity 2 —
two admissions, one completion, one further admission — keeps the permit
accounting exact and the in-flight count within the capacity. -/
theorem C3_amended_witness :
    (dispatchRun 2
          [DispatchEvent.msgValid, DispatchEvent.msgValid,
           DispatchEvent.taskDone, DispatchEvent.msgValid]).inFlight +
        (dispatchRun 2
          [DispatchEvent.msgValid, DispatchEvent.msgValid,
           DispatchEvent.taskDone, DispatchEvent.msgValid]).sem = 2 ∧
    (dispatchRun 2
        [DispatchEvent.msgValid, DispatchEvent.msgValid,
         DispatchEvent.taskDone, DispatchEvent.msgValid]).inFlight ≤ 2 :=
  C3_amended_bound_without_malformed 2
    [DispatchEvent.msgValid, DispatchEvent.msgValid,
     DispatchEvent.taskDone, DispatchEvent.msgValid]
    (by decide)

/-- C4: refuted on the code. `shutdown` awaits a gather of one 0.1-second
sleep per active task — not the tasks themselves — capped by the 10-second
timeout. With any non-empty active set the wait is exactly 0.1 seconds:
strictly less than the drain timeout, and independent of how much longer the
active tasks still run, so the bus and store connections are closed while a
held task is still in flight, where the claim requires shutdown to wait for
drain or for the full 10-second timeout. -/
theorem C4_shutdown_wait_is_tenth_second (active : List String)
    (remaining : String → ℚ) (h : active ≠ []) :
    shutdown_wait_duration active remaining = 1 / 10 ∧
    shutdown_wait_duration active remaining < shutdown_timeout ∧
    ∀ remaining2 : String → ℚ,
      shutdown_wait_duration active remaining2 =
        shutdown_wait_duration active remaining := by
  match active, h with
  | a :: l, _ =>
    have h1 : shutdown_wait_duration (a :: l) remaining = 1 / 10 := by
      simp [shutdown_wait_duration, gather_sleeps_duration, wait_for_duration,
        shutdown_timeout]
      norm_num
    refine ⟨h1, ?_, fun _ => rfl⟩
    rw [h1]
    norm_num [shutdown_timeout]

/-- Witness for C4: with one task held active needing another 100 seconds,
shutdown waits 0.1 seconds — below the 10-second drain timeout — and the wait
is the same as when the task would need only 3 more seconds. -/
theorem C4_witness :
    shutdown_wait_duration ["held"] (fun _ => 100) = 1 / 10 ∧
    shutdown_wait_duration ["held"] (fun _ => 100) < shutdown_timeout ∧
    shutdown_wait_duration ["held"] (fun _ => 3) =
      shutdown_wait_duration ["held"] (fun _ => 100) :=
  ⟨(C4_shutdown_wait_is_tenth_second ["held"] (fun _ => 100)
      (by simp)).1,
   (C4_shutdown_wait_is_tenth_second ["held"] (fun _ => 100)
      (by simp)).2.1,
   (C4_shutdown_wait_is_tenth_second ["held"] (fun _ => 100)
      (by simp)).2.2 (fun _ => 3)⟩

end CircuitExecutor
